import Mathlib

/-!
The odohd server: start-up, key generation and server wiring (`main.go`).

A shallow embedding of `main.go` of the ODoH server: the HPKE suite constants,
the CLI options, `keyPair`, `serverPair`, `setupHandlers`, `serve` and `main`.

Conventions of the embedding:

* a Go `error` is a message, and a possibly-nil error is an `Option Error`;
* a `time.Duration` is an `Int` count of nanoseconds, kept in the `int64` range
  by `wrapInt64` where Go arithmetic can overflow;
* a finite `float32` is the dyadic rational `mant * 2 ^ exp`;
* library calls whose results come from outside the program (`flags.ParseArgs`,
  `rand.Read`, `odoh.CreateKeyPairFromSeed`, the blocking listener) are fields
  of an environment `Env`;
* the observable effects of `main` are a trace of `Event`s, the contents of the
  default HTTP mux, and the exit status.
-/

namespace Odohd

/-! ## Basic types -/

/-- A Go `error` value that is not nil, identified by its message. -/
abbrev Error := String

/-- One octet. -/
abbrev Byte := Fin 256

/-- Nanosecond count of a `time.Duration` (an `int64`). -/
abbrev Duration := Int

/-- Two's complement reduction of an integer into the `int64` range. -/
def wrapInt64 (x : Int) : Int :=
  (x + 2 ^ 63) % 2 ^ 64 - 2 ^ 63

/-- Go `time.Second`, in nanoseconds. -/
def time.Second : Duration := 1000000000

/-- Go `Duration * Duration`: `int64` multiplication, wrapping on overflow. -/
def Duration.mul (a b : Duration) : Duration :=
  wrapInt64 (a * b)

/-- A finite `float32` value, held exactly as `mant * 2 ^ exp`. -/
structure Float32 where
  mant : Int
  exp : Int
  deriving DecidableEq, Repr

/-- The `float32` holding the integer `n`. -/
def Float32.ofInt (n : Int) : Float32 := ⟨n, 0⟩

/-- Mathematical truncation toward zero of `mant * 2 ^ exp`. -/
def Float32.trunc (f : Float32) : Int :=
  if 0 ≤ f.exp then f.mant * 2 ^ f.exp.toNat
  else Int.tdiv f.mant (2 ^ (-f.exp).toNat)

/-- Go conversion `int64(f)` (here `time.Duration(f)`) of a `float32`: the
fraction is discarded. A value outside the `int64` range converts to an
implementation-dependent result; the amd64 result (the minimum `int64`) is
used. -/
def Float32.toInt64 (f : Float32) : Int :=
  let t := f.trunc
  if -(2 ^ 63) ≤ t ∧ t < 2 ^ 63 then t else -(2 ^ 63)

/-- The value of `f` is the integer `n`: `mant * 2 ^ exp = n`, stated without
division. -/
def Float32.isInt (f : Float32) (n : Int) : Prop :=
  if 0 ≤ f.exp then n = f.mant * 2 ^ f.exp.toNat
  else f.mant = n * 2 ^ (-f.exp).toNat

instance (f : Float32) (n : Int) : Decidable (f.isInt n) := by
  unfold Float32.isInt
  exact inferInstance

/-- The duration `d` is exactly `f` seconds: `d = mant * 2 ^ exp * 10 ^ 9`,
stated without division. -/
def Duration.isSeconds (d : Duration) (f : Float32) : Prop :=
  if 0 ≤ f.exp then d = f.mant * 2 ^ f.exp.toNat * 1000000000
  else d * 2 ^ (-f.exp).toNat = f.mant * 1000000000

instance (d : Duration) (f : Float32) : Decidable (d.isSeconds f) := by
  unfold Duration.isSeconds
  exact inferInstance

/-! ## HPKE suite identifiers (package `hpke`) and ODoH key pairs (package `odoh`) -/

namespace hpke

/-- KEM identifiers of package `hpke`. -/
inductive KEMID where
  | DHKEM_P256
  | DHKEM_P384
  | DHKEM_P521
  | DHKEM_X25519
  | DHKEM_X448
  deriving DecidableEq, Repr

/-- KDF identifiers of package `hpke`. -/
inductive KDFID where
  | KDF_HKDF_SHA256
  | KDF_HKDF_SHA384
  | KDF_HKDF_SHA512
  deriving DecidableEq, Repr

/-- AEAD identifiers of package `hpke`. -/
inductive AEADID where
  | AEAD_AESGCM128
  | AEAD_AESGCM256
  | AEAD_CHACHA20POLY1305
  deriving DecidableEq, Repr

end hpke

namespace odoh

/-- Public part of an ODoH key pair (package `odoh`). -/
structure ObliviousDoHConfigContents where
  KemID : hpke.KEMID
  KdfID : hpke.KDFID
  AeadID : hpke.AEADID
  PublicKeyBytes : List Byte
  deriving DecidableEq, Repr

/-- The value type `odoh.ObliviousDoHKeyPair`. The program only stores and
passes it on; no definition below looks inside it. -/
structure ObliviousDoHKeyPair where
  Config : ObliviousDoHConfigContents
  secretKey : List Byte
  Seed : List Byte
  deriving DecidableEq, Repr

end odoh

/-- Type of the library function `odoh.CreateKeyPairFromSeed(kemID, kdfID,
aeadID, ikm)`, which returns a key pair value together with an error. -/
abbrev CreateKeyPairFromSeedFn :=
  hpke.KEMID → hpke.KDFID → hpke.AEADID → List Byte →
    odoh.ObliviousDoHKeyPair × Option Error

/-! ## Constants and options of `main.go` -/

/-- Constant `kemID`. -/
def kemID : hpke.KEMID := hpke.KEMID.DHKEM_X25519

/-- Constant `kdfID`. -/
def kdfID : hpke.KDFID := hpke.KDFID.KDF_HKDF_SHA256

/-- Constant `aeadID`. -/
def aeadID : hpke.AEADID := hpke.AEADID.AEAD_AESGCM128

/-- Constant `defaultSeedLength`: as many bytes as the x25519 secret key. -/
def defaultSeedLength : Nat := 32

/-- The CLI flags struct `opts`. -/
structure Opts where
  ListenAddr : String
  MetricsListenAddr : String
  Resolver : String
  DisableTls : Bool
  Cert : String
  Key : String
  ResolverTimeout : Float32
  ProxyTimeout : Float32
  Verbose : Bool
  ShowVersion : Bool
  deriving DecidableEq, Repr

/-- The option values given by the `default:` tags, with every untagged flag
at its zero value. -/
def Opts.default : Opts where
  ListenAddr := "localhost:8080"
  MetricsListenAddr := "localhost:8081"
  Resolver := "127.0.0.1:53"
  DisableTls := false
  Cert := ""
  Key := ""
  ResolverTimeout := ⟨5, -1⟩
  ProxyTimeout := ⟨5, -1⟩
  Verbose := false
  ShowVersion := false

/-! ## `keyPair` -/

/-- The entropy source behind `rand.Read(b)`: given the buffer it returns the
buffer after the call, the byte count and the error. A Go slice keeps its
length across the call. -/
structure RandReader where
  Read : List Byte → List Byte × Nat × Option Error
  length_Read : ∀ b, (Read b).1.length = b.length

/-- Function `keyPair`: the results are the `*odoh.ObliviousDoHKeyPair`
(`none` for nil) and the error. -/
def keyPair (rand : RandReader) (CreateKeyPairFromSeed : CreateKeyPairFromSeedFn) :
    Option odoh.ObliviousDoHKeyPair × Option Error :=
  -- seed := make([]byte, defaultSeedLength); _, err := rand.Read(seed)
  let seed₀ : List Byte := List.replicate defaultSeedLength 0
  match rand.Read seed₀ with
  | (_, _, some err) => (none, some err)
  | (seed, _, none) =>
    match CreateKeyPairFromSeed hpke.KEMID.DHKEM_X25519 hpke.KDFID.KDF_HKDF_SHA256
        hpke.AEADID.AEAD_AESGCM128 seed with
    | (_, some err) => (none, some err)
    | (kp, none) => (some kp, none)

/-! ## Servers and `serverPair` -/

/-- The struct `targetResolver`, with the two fields `serverPair` sets. -/
structure targetResolver where
  timeout : Duration
  nameserver : String
  deriving DecidableEq, Repr

/-- The struct `targetServer`, with the two fields `serverPair` sets. -/
structure targetServer where
  resolver : targetResolver
  odohKeyPair : odoh.ObliviousDoHKeyPair
  deriving DecidableEq, Repr

namespace http

/-- The limits and timeouts of `http.Transport`; a field left out of a
composite literal has its zero value. -/
structure Transport where
  MaxIdleConns : Int := 0
  MaxIdleConnsPerHost : Int := 0
  MaxConnsPerHost : Int := 0
  TLSHandshakeTimeout : Duration := 0
  IdleConnTimeout : Duration := 0
  ResponseHeaderTimeout : Duration := 0
  ExpectContinueTimeout : Duration := 0
  deriving DecidableEq, Repr

/-- The struct `http.Client`: its transport and `Timeout`, the time limit for a
whole request made by the client, where zero means no timeout. -/
structure Client where
  Transport : Transport
  Timeout : Duration := 0
  deriving DecidableEq, Repr

end http

/-- The struct `proxyServer`, with the field `serverPair` sets. -/
structure proxyServer where
  client : http.Client
  deriving DecidableEq, Repr

/-- An HTTP handler value registered by `setupHandlers`: a method value bound
to its receiver, or a function literal given by what it writes to the response
writer. -/
inductive Handler where
  | proxyQueryHandler (recv : proxyServer)
  | targetQueryHandler (recv : targetServer)
  | configHandler (recv : targetServer)
  | funcLit (write : String → String)

/-- The registrations held by the default mux of `net/http`, oldest first. -/
abbrev ServeMux := List (String × Handler)

/-- Go `http.HandleFunc(pattern, handler)` on the default mux. -/
def http.HandleFunc (mux : ServeMux) (pattern : String) (handler : Handler) : ServeMux :=
  mux ++ [(pattern, handler)]

/-- An effect of the program, in the order the calls are made. -/
inductive Event where
  | setLevelDebug
  | debugln (msg : String)
  | debugf (format : String) (arg : Float32)
  | printf (msg : String)
  | infof (msg : String)
  | fatal (msg : String)
  | nilDereference
  | goMetricsServe (addr : String)
  | keyPair (result : Option odoh.ObliviousDoHKeyPair × Option Error)
  | listenAndServeTLS (addr certFile keyFile : String)
  | listenAndServe (addr : String)
  deriving DecidableEq, Repr

/-- Function `serverPair`: returns a target and proxy server, after the two
debug log calls, which come first in the result. -/
def serverPair (opts : Opts) (keyPair : odoh.ObliviousDoHKeyPair) :
    List Event × targetServer × proxyServer :=
  let target : targetServer :=
    { resolver :=
        { timeout := Duration.mul opts.ResolverTimeout.toInt64 time.Second
          nameserver := opts.Resolver }
      odohKeyPair := keyPair }
  let proxy : proxyServer :=
    { client :=
        { Transport :=
            { MaxIdleConnsPerHost := 1024
              TLSHandshakeTimeout := Duration.mul opts.ProxyTimeout.toInt64 time.Second } } }
  ([Event.debugf "resolver timeout: %+v" opts.ResolverTimeout,
    Event.debugf "proxy timeout: %+v" opts.ProxyTimeout], target, proxy)

/-! ## `setupHandlers` and `serve` -/

/-- The function literal registered for `/health`: `fmt.Fprint(w, "ok")`. -/
def healthHandler (w : String) : String :=
  w ++ "ok"

/-- Function `setupHandlers`: configures HTTP handlers. -/
def setupHandlers (target : targetServer) (proxy : proxyServer) (mux : ServeMux) : ServeMux :=
  let mux := http.HandleFunc mux "/proxy" (Handler.proxyQueryHandler proxy)
  let mux := http.HandleFunc mux "/dns-query" (Handler.targetQueryHandler target)
  let mux := http.HandleFunc mux "/health" (Handler.funcLit healthHandler)
  http.HandleFunc mux "/.well-known/odohconfigs" (Handler.configHandler target)

/-- What `log.Fatal(listenResult)` adds once the blocking listener call has
returned the error `listenResult`; `none` is a listener that never returns. -/
def fatalAfterListen (listenResult : Option Error) : List Event × Option Nat :=
  match listenResult with
  | none => ([], none)
  | some err => ([Event.fatal err], some 1)

/-- Function `serve`: starts the HTTP server. The result is the calls made and
the exit status, `none` while the listener keeps serving. -/
def serve (listenResult : Option Error) (listenAddr : String) (tls : Bool)
    (tlsCert tlsKey : String) : List Event × Option Nat :=
  let start := Event.infof ("Starting ODoH listener on " ++ listenAddr)
  if tls then
    (start :: Event.listenAndServeTLS listenAddr tlsCert tlsKey ::
      (fatalAfterListen listenResult).1, (fatalAfterListen listenResult).2)
  else
    (start :: Event.listenAndServe listenAddr ::
      (fatalAfterListen listenResult).1, (fatalAfterListen listenResult).2)

/-! ## `main` -/

/-- Everything a run of `main` takes from outside: the build variables, the
options and error left by `flags.ParseArgs(&opts, os.Args)`, the entropy
source, the key derivation of package `odoh`, and the error the listener
returns, if it ever returns. -/
structure Env where
  version : String := "dev"
  commit : String := "unknown"
  date : String := "unknown"
  ParseArgs : Opts × Option Error
  rand : RandReader
  CreateKeyPairFromSeed : CreateKeyPairFromSeedFn
  listenResult : Option Error

/-- A run of `main`: the calls made in order, the handlers registered on the
default mux, and the exit status (`none`: the process keeps serving). -/
structure Run where
  trace : List Event
  mux : ServeMux
  exit : Option Nat

/-- Function `main`. The metrics goroutine is recorded at the point where it is
started; `log.Fatal` and `os.Exit` end the run with status 1 and the given
status, a nil dereference ends it with status 2. -/
def main (env : Env) : Run :=
  match env.ParseArgs with
  | (_, some _) => ⟨[], [], some 1⟩
  | (opts, none) =>
    let t₁ : List Event :=
      if env.version == "dev" || opts.Verbose then
        [Event.setLevelDebug, Event.debugln "Verbose logging enabled"]
      else []
    if opts.ShowVersion then
      ⟨t₁ ++ [Event.printf ("odohd " ++ env.version ++ " commit " ++ env.commit ++
          " date " ++ env.date ++ "\n")], [], some 0⟩
    else if !opts.DisableTls && (opts.Cert == "" || opts.Key == "") then
      ⟨t₁ ++ [Event.fatal "--cert and --key must be set when TLS is enabled"], [], some 1⟩
    else
      let t₂ := t₁ ++ [Event.goMetricsServe opts.MetricsListenAddr]
      match keyPair env.rand env.CreateKeyPairFromSeed with
      | (kp, some err) => ⟨t₂ ++ [Event.keyPair (kp, some err), Event.fatal err], [], some 1⟩
      | (none, none) => ⟨t₂ ++ [Event.keyPair (none, none), Event.nilDereference], [], some 2⟩
      | (some kp, none) =>
        -- proxy, target := serverPair(*kp); setupHandlers(proxy, target)
        match serverPair opts kp with
        | (log, proxy, target) =>
          let mux := setupHandlers proxy target []
          let s := serve env.listenResult opts.ListenAddr (!opts.DisableTls) opts.Cert opts.Key
          ⟨t₂ ++ [Event.keyPair (some kp, none)] ++ log ++ s.1, mux, s.2⟩

/-! ## Observations on runs -/

/-- The event is a call of `keyPair`. -/
def Event.isKeyPair : Event → Bool
  | Event.keyPair _ => true
  | _ => false

/-- The event starts an ODoH listener, with or without TLS. -/
def Event.isListen : Event → Bool
  | Event.listenAndServeTLS _ _ _ => true
  | Event.listenAndServe _ => true
  | _ => false

/-- The event starts the metrics server. -/
def Event.isMetrics : Event → Bool
  | Event.goMetricsServe _ => true
  | _ => false

/-- The event is a `log.Fatal` call. -/
def Event.isFatal : Event → Bool
  | Event.fatal _ => true
  | _ => false

/-- The run reached `serve` and started a listener. -/
def Run.servesODoH (r : Run) : Bool :=
  r.trace.any Event.isListen

/-- The patterns registered on a mux, oldest first. -/
def ServeMux.patterns (mux : ServeMux) : List String :=
  mux.map Prod.fst

/-- The target server a handler is bound to, if it is a method value of one. -/
def Handler.target? : Handler → Option targetServer
  | Handler.targetQueryHandler recv => some recv
  | Handler.configHandler recv => some recv
  | _ => none

/-- The calls `main` makes when it enables debug logging. -/
def verboseLog (version : String) (verbose : Bool) : List Event :=
  if version == "dev" || verbose then
    [Event.setLevelDebug, Event.debugln "Verbose logging enabled"]
  else []

/-- The line `main` prints for the version flag. -/
def versionLine (env : Env) : String :=
  "odohd " ++ env.version ++ " commit " ++ env.commit ++ " date " ++ env.date ++ "\n"

/-- The message of the fatal TLS check of `main`. -/
def tlsMessage : String := "--cert and --key must be set when TLS is enabled"

/-- The TLS check of `main` passes: TLS is disabled, or both files are named. -/
def Opts.tlsConfigured (opts : Opts) : Prop :=
  opts.DisableTls = true ∨ (opts.Cert ≠ "" ∧ opts.Key ≠ "")

instance (opts : Opts) : Decidable opts.tlsConfigured := by
  unfold Opts.tlsConfigured
  exact inferInstance

/-- The event starts none of the later start-up steps: no fatal TLS check, no
metrics server, no key pair, no listener. -/
def Event.isStartupStep (e : Event) : Bool :=
  e.isFatal || e.isMetrics || e.isKeyPair || e.isListen

/-! ## Sample environments -/

/-- An environment with build variables left at their defaults, a parse result,
an entropy source, a key derivation, and a listener that keeps serving. -/
def envOf (opts : Opts) (parseErr : Option Error) (rand : RandReader)
    (create : CreateKeyPairFromSeedFn) : Env where
  ParseArgs := (opts, parseErr)
  rand := rand
  CreateKeyPairFromSeed := create
  listenResult := none

/-- Options for a plain HTTP server: the defaults with `--no-tls`. -/
def noTlsOpts : Opts := { Opts.default with DisableTls := true }

/-- Options for an HTTPS server: the defaults with a certificate and a key. -/
def tlsOpts : Opts := { Opts.default with Cert := "cert.pem", Key := "key.pem" }

/-- An entropy source that fills the whole buffer with the octet `7`. -/
def sevens : RandReader where
  Read b := (b.map (fun _ => 7), b.length, none)
  length_Read b := by simp

/-- An entropy source that fails with `"no entropy"` and leaves the buffer. -/
def noEntropy : RandReader where
  Read b := (b, 0, some "no entropy")
  length_Read _ := rfl

/-- A stand-in key derivation: it records the suite and copies the seed. -/
def copySeed : CreateKeyPairFromSeedFn :=
  fun kem kdf aead ikm => (⟨⟨kem, kdf, aead, ikm⟩, ikm, ikm⟩, none)

/-- A stand-in key derivation that rejects every seed. -/
def rejectSeed : CreateKeyPairFromSeedFn :=
  fun kem kdf aead _ => (⟨⟨kem, kdf, aead, []⟩, [], []⟩, some "bad suite")

/-- The key pair `copySeed` derives from the seed left by `sevens`. -/
def sevensKeyPair : odoh.ObliviousDoHKeyPair :=
  (copySeed kemID kdfID aeadID (List.replicate 32 7)).1

/-! ## Theorems: `keyPair` -/

/-- Every call of `keyPair` returns either nil with an error or a key pair with
a nil error. -/
theorem keyPair_cases (rand : RandReader) (create : CreateKeyPairFromSeedFn) :
    (∃ err, keyPair rand create = (none, some err)) ∨
      (∃ kp, keyPair rand create = (some kp, none)) := by
  rcases hread : rand.Read (List.replicate defaultSeedLength 0) with ⟨buf, n, _ | err⟩
  · rcases hkp : create hpke.KEMID.DHKEM_X25519 hpke.KDFID.KDF_HKDF_SHA256
        hpke.AEADID.AEAD_AESGCM128 buf with ⟨kp, _ | err⟩
    · exact Or.inr ⟨kp, by simp only [keyPair, hread, hkp]⟩
    · exact Or.inl ⟨err, by simp only [keyPair, hread, hkp]⟩
  · exact Or.inl ⟨err, by simp only [keyPair, hread]⟩

/-- C1: when the entropy source fills the buffer without error, the seed has
exactly 32 bytes (`defaultSeedLength`) and the result of `keyPair` is the result
of `CreateKeyPairFromSeed kemID kdfID aeadID seed` on that seed: its key pair
with a nil error when the derivation succeeds, nil with its error otherwise. -/
theorem keyPair_eq_create_of_read (rand : RandReader)
    (create : CreateKeyPairFromSeedFn) (seed : List Byte) (n : Nat)
    (hread : rand.Read (List.replicate defaultSeedLength 0) = (seed, n, none)) :
    defaultSeedLength = 32 ∧ seed.length = 32 ∧
      (∀ kp, create kemID kdfID aeadID seed = (kp, none) →
        keyPair rand create = (some kp, none)) ∧
      (∀ kp err, create kemID kdfID aeadID seed = (kp, some err) →
        keyPair rand create = (none, some err)) := by
  have hlen : seed.length = 32 := by
    have h := rand.length_Read (List.replicate defaultSeedLength 0)
    rw [hread] at h
    simpa [defaultSeedLength] using h
  refine ⟨rfl, hlen, ?_, ?_⟩
  · intro kp hkp
    have hkp' : create hpke.KEMID.DHKEM_X25519 hpke.KDFID.KDF_HKDF_SHA256
        hpke.AEADID.AEAD_AESGCM128 seed = (kp, none) := hkp
    simp only [keyPair, hread, hkp']
  · intro kp err hkp
    have hkp' : create hpke.KEMID.DHKEM_X25519 hpke.KDFID.KDF_HKDF_SHA256
        hpke.AEADID.AEAD_AESGCM128 seed = (kp, some err) := hkp
    simp only [keyPair, hread, hkp']

/-- C1 at the source `sevens` and the derivation `copySeed`. -/
theorem keyPair_eq_create_of_read_witness :
    sevens.Read (List.replicate defaultSeedLength 0) = (List.replicate 32 7, 32, none) ∧
      (List.replicate 32 (7 : Byte)).length = 32 ∧
      keyPair sevens copySeed = (some sevensKeyPair, none) :=
  have hread : sevens.Read (List.replicate defaultSeedLength 0)
      = (List.replicate 32 7, 32, none) := by decide
  have h := keyPair_eq_create_of_read sevens copySeed (List.replicate 32 7) 32 hread
  ⟨hread, h.2.1, h.2.2.1 sevensKeyPair rfl⟩

/-- C2: if `rand.Read` reports an error, or `CreateKeyPairFromSeed` reports an
error, `keyPair` returns nil together with that error; a returned key pair
comes with a nil error, and exactly one of the two results is set. -/
theorem keyPair_error_or_keyPair (rand : RandReader) (create : CreateKeyPairFromSeedFn) :
    (∀ buf n err, rand.Read (List.replicate defaultSeedLength 0) = (buf, n, some err) →
        keyPair rand create = (none, some err)) ∧
      (∀ seed n kp err, rand.Read (List.replicate defaultSeedLength 0) = (seed, n, none) →
        create kemID kdfID aeadID seed = (kp, some err) →
        keyPair rand create = (none, some err)) ∧
      (∀ kp, (keyPair rand create).1 = some kp → (keyPair rand create).2 = none) ∧
      ((keyPair rand create).1.isSome = (keyPair rand create).2.isNone) := by
  refine ⟨?_, ?_, ?_, ?_⟩
  · intro buf n err hread
    simp only [keyPair, hread]
  · intro seed n kp err hread hkp
    have hkp' : create hpke.KEMID.DHKEM_X25519 hpke.KDFID.KDF_HKDF_SHA256
        hpke.AEADID.AEAD_AESGCM128 seed = (kp, some err) := hkp
    simp only [keyPair, hread, hkp']
  · intro kp
    rcases keyPair_cases rand create with ⟨err, h⟩ | ⟨kp', h⟩ <;> simp [h]
  · rcases keyPair_cases rand create with ⟨err, h⟩ | ⟨kp', h⟩ <;> simp [h]

/-- C2 at a failing entropy source and at a failing derivation. -/
theorem keyPair_error_or_keyPair_witness :
    keyPair noEntropy copySeed = (none, some "no entropy") ∧
      keyPair sevens rejectSeed = (none, some "bad suite") ∧
      (keyPair sevens copySeed).2 = none :=
  have h₁ := keyPair_error_or_keyPair noEntropy copySeed
  have h₂ := keyPair_error_or_keyPair sevens rejectSeed
  have h₃ := keyPair_error_or_keyPair sevens copySeed
  ⟨h₁.1 (List.replicate 32 0) 0 "no entropy" rfl,
    h₂.2.1 (List.replicate 32 7) 32 ⟨⟨kemID, kdfID, aeadID, []⟩, [], []⟩ "bad suite"
      (by decide) rfl,
    h₃.2.2.1 sevensKeyPair (by decide)⟩

/-! ## Theorems: `serverPair` -/

/-- Reduction into the `int64` range leaves a value of that range unchanged. -/
theorem wrapInt64_of_range (x : Int) (hlo : -(2 ^ 63) ≤ x) (hhi : x < 2 ^ 63) :
    wrapInt64 x = x := by
  unfold wrapInt64
  omega

/-- Truncation of a `float32` whose value is the integer `n` gives `n`. -/
theorem Float32.trunc_of_isInt (f : Float32) (n : Int) (h : f.isInt n) : f.trunc = n := by
  unfold Float32.isInt at h
  unfold Float32.trunc
  split at h
  · rename_i hexp
    simp [hexp, h]
  · rename_i hexp
    simp only [hexp, if_false, h]
    exact Int.mul_tdiv_cancel n (by positivity)

/-- A `float32` holding a whole number `n` of seconds, with `n` seconds inside
the `int64` range of nanoseconds, converts to exactly `n` seconds. -/
theorem seconds_of_isInt (f : Float32) (n : Int) (h : f.isInt n)
    (hlo : -(2 ^ 63) ≤ n * 1000000000) (hhi : n * 1000000000 < 2 ^ 63) :
    Duration.mul f.toInt64 time.Second = n * 1000000000 := by
  have ht : f.toInt64 = n := by
    unfold Float32.toInt64
    rw [Float32.trunc_of_isInt f n h]
    simp only
    rw [if_pos]
    constructor <;> omega
  rw [ht]
  unfold Duration.mul time.Second
  exact wrapInt64_of_range _ hlo hhi

/-- C3, as stated, fails: with the default options (`--proxy-timeout` 2.5) the
client of the proxy has the overall request timeout zero, which is neither
non-zero nor 2.5 seconds. -/
theorem serverPair_client_timeout_zero_default :
    (serverPair Opts.default sevensKeyPair).2.2.client.Timeout = 0 ∧
      ¬ ((serverPair Opts.default sevensKeyPair).2.2.client.Timeout ≠ 0 ∧
        Duration.isSeconds (serverPair Opts.default sevensKeyPair).2.2.client.Timeout
          Opts.default.ProxyTimeout) := by
  decide

/-- C3, amended: for every `ProxyTimeout` the client built for the proxy has no
overall request timeout (`Timeout` is zero); the option reaches the client only
as the TLS handshake timeout of its transport, whose other fields are
`MaxIdleConnsPerHost = 1024` and zero values; and a `ProxyTimeout` of a whole
number `n` of seconds inside the `int64` nanosecond range gives a TLS handshake
timeout of exactly `n` seconds. -/
theorem serverPair_client_handshake_timeout_only (opts : Opts)
    (keyPair : odoh.ObliviousDoHKeyPair) :
    (serverPair opts keyPair).2.2.client.Timeout = 0 ∧
      (serverPair opts keyPair).2.2.client.Transport =
        { MaxIdleConnsPerHost := 1024
          TLSHandshakeTimeout := Duration.mul opts.ProxyTimeout.toInt64 time.Second } ∧
      (∀ n : Int, opts.ProxyTimeout.isInt n →
        -(2 ^ 63) ≤ n * 1000000000 → n * 1000000000 < 2 ^ 63 →
        (serverPair opts keyPair).2.2.client.Transport.TLSHandshakeTimeout
          = n * 1000000000) := by
  refine ⟨rfl, rfl, ?_⟩
  intro n h hlo hhi
  exact seconds_of_isInt opts.ProxyTimeout n h hlo hhi

/-- C3, amended, at `--proxy-timeout 3`: a 3 second TLS handshake timeout and
no overall timeout. -/
theorem serverPair_client_handshake_timeout_only_witness :
    (Float32.ofInt 3).isInt 3 ∧
      (serverPair { Opts.default with ProxyTimeout := Float32.ofInt 3 }
        sevensKeyPair).2.2.client.Transport.TLSHandshakeTimeout = 3 * 1000000000 ∧
      (serverPair { Opts.default with ProxyTimeout := Float32.ofInt 3 }
        sevensKeyPair).2.2.client.Timeout = 0 :=
  have h := serverPair_client_handshake_timeout_only
    { Opts.default with ProxyTimeout := Float32.ofInt 3 } sevensKeyPair
  ⟨by decide, h.2.2 3 (by decide) (by decide) (by decide), h.1⟩

/-- C4 on the code: with the default `--resolver-timeout` 2.5 the resolver
timeout is 2 seconds, which is not 2.5 seconds (2500 ms), and with 0.5 it is
zero although 0.5 is positive. -/
theorem serverPair_resolver_timeout_truncated (keyPair : odoh.ObliviousDoHKeyPair) :
    Opts.default.ResolverTimeout = ⟨5, -1⟩ ∧
      (serverPair Opts.default keyPair).2.1.resolver.timeout = 2000000000 ∧
      ¬ Duration.isSeconds (serverPair Opts.default keyPair).2.1.resolver.timeout
          Opts.default.ResolverTimeout ∧
      (serverPair { Opts.default with ResolverTimeout := ⟨1, -1⟩ }
        keyPair).2.1.resolver.timeout = 0 := by
  refine ⟨rfl, ?_, ?_, ?_⟩
  · show Duration.mul (Float32.toInt64 ⟨5, -1⟩) time.Second = 2000000000
    decide
  · show ¬ Duration.isSeconds (Duration.mul (Float32.toInt64 ⟨5, -1⟩) time.Second) ⟨5, -1⟩
    decide
  · show Duration.mul (Float32.toInt64 ⟨1, -1⟩) time.Second = 0
    decide

/-- C7: the proxy server does not depend on the key pair: for the same options
`serverPair` returns equal proxy servers for any two key pairs, while the
`odohKeyPair` field of the target server is the key pair passed in. -/
theorem serverPair_proxy_independent_of_keyPair (opts : Opts)
    (k₁ k₂ : odoh.ObliviousDoHKeyPair) :
    (serverPair opts k₁).2.2 = (serverPair opts k₂).2.2 ∧
      (serverPair opts k₁).2.1.odohKeyPair = k₁ ∧
      (serverPair opts k₂).2.1.odohKeyPair = k₂ :=
  ⟨rfl, rfl, rfl⟩

/-! ## The five ways a run of `main` goes -/

/-- A failed parse: exit status 1 and nothing else. -/
theorem main_of_parse_error (env : Env) (opts : Opts) (err : Error)
    (hparse : env.ParseArgs = (opts, some err)) :
    main env = ⟨[], [], some 1⟩ := by
  simp only [main, hparse]

/-- The version flag: the version line, then exit status 0. -/
theorem main_of_version (env : Env) (opts : Opts)
    (hparse : env.ParseArgs = (opts, none)) (hver : opts.ShowVersion = true) :
    main env = ⟨verboseLog env.version opts.Verbose ++ [Event.printf (versionLine env)],
      [], some 0⟩ := by
  simp only [main, hparse, hver, verboseLog, versionLine, if_true]

/-- TLS enabled without both files: the fatal message, then exit status 1. -/
theorem main_of_tls_missing (env : Env) (opts : Opts)
    (hparse : env.ParseArgs = (opts, none)) (hver : opts.ShowVersion = false)
    (htls : ¬ opts.tlsConfigured) :
    main env = ⟨verboseLog env.version opts.Verbose ++ [Event.fatal tlsMessage],
      [], some 1⟩ := by
  have hcond : (!opts.DisableTls && (opts.Cert == "" || opts.Key == "")) = true := by
    unfold Opts.tlsConfigured at htls
    cases hd : opts.DisableTls <;> simp_all
    tauto
  simp only [main, hparse, hver, hcond, verboseLog, tlsMessage, if_true]
  simp

/-- A failed key generation: the metrics server is started, `keyPair` is called
once, and the run ends with `log.Fatal` of its error. -/
theorem main_of_keyPair_error (env : Env) (opts : Opts) (err : Error)
    (hparse : env.ParseArgs = (opts, none)) (hver : opts.ShowVersion = false)
    (htls : opts.tlsConfigured)
    (hkp : keyPair env.rand env.CreateKeyPairFromSeed = (none, some err)) :
    main env = ⟨verboseLog env.version opts.Verbose ++
      [Event.goMetricsServe opts.MetricsListenAddr, Event.keyPair (none, some err),
        Event.fatal err], [], some 1⟩ := by
  have hcond : (!opts.DisableTls && (opts.Cert == "" || opts.Key == "")) = false := by
    unfold Opts.tlsConfigured at htls
    cases hd : opts.DisableTls <;> simp_all
  simp only [main, hparse, hver, hcond, hkp, verboseLog]
  simp

/-- A successful key generation: the servers are built from the key pair, the
handlers are registered, and `serve` starts the listener. -/
theorem main_of_keyPair_ok (env : Env) (opts : Opts) (kp : odoh.ObliviousDoHKeyPair)
    (hparse : env.ParseArgs = (opts, none)) (hver : opts.ShowVersion = false)
    (htls : opts.tlsConfigured)
    (hkp : keyPair env.rand env.CreateKeyPairFromSeed = (some kp, none)) :
    main env = ⟨verboseLog env.version opts.Verbose ++
      [Event.goMetricsServe opts.MetricsListenAddr, Event.keyPair (some kp, none)] ++
      (serverPair opts kp).1 ++
      (serve env.listenResult opts.ListenAddr (!opts.DisableTls) opts.Cert opts.Key).1,
      setupHandlers (serverPair opts kp).2.1 (serverPair opts kp).2.2 [],
      (serve env.listenResult opts.ListenAddr (!opts.DisableTls) opts.Cert opts.Key).2⟩ := by
  have hcond : (!opts.DisableTls && (opts.Cert == "" || opts.Key == "")) = false := by
    unfold Opts.tlsConfigured at htls
    cases hd : opts.DisableTls <;> simp_all
  simp only [main, hparse, hver, hcond, hkp, verboseLog]
  simp

/-- Every run of `main` goes one of five ways. -/
theorem main_cases (env : Env) :
    (∃ opts err, env.ParseArgs = (opts, some err) ∧ main env = ⟨[], [], some 1⟩) ∨
    (∃ opts, env.ParseArgs = (opts, none) ∧ opts.ShowVersion = true ∧
      main env = ⟨verboseLog env.version opts.Verbose ++ [Event.printf (versionLine env)],
        [], some 0⟩) ∨
    (∃ opts, env.ParseArgs = (opts, none) ∧ opts.ShowVersion = false ∧
      ¬ opts.tlsConfigured ∧
      main env = ⟨verboseLog env.version opts.Verbose ++ [Event.fatal tlsMessage],
        [], some 1⟩) ∨
    (∃ opts err, env.ParseArgs = (opts, none) ∧ opts.ShowVersion = false ∧
      opts.tlsConfigured ∧
      keyPair env.rand env.CreateKeyPairFromSeed = (none, some err) ∧
      main env = ⟨verboseLog env.version opts.Verbose ++
        [Event.goMetricsServe opts.MetricsListenAddr, Event.keyPair (none, some err),
          Event.fatal err], [], some 1⟩) ∨
    (∃ opts kp, env.ParseArgs = (opts, none) ∧ opts.ShowVersion = false ∧
      opts.tlsConfigured ∧
      keyPair env.rand env.CreateKeyPairFromSeed = (some kp, none) ∧
      main env = ⟨verboseLog env.version opts.Verbose ++
        [Event.goMetricsServe opts.MetricsListenAddr, Event.keyPair (some kp, none)] ++
        (serverPair opts kp).1 ++
        (serve env.listenResult opts.ListenAddr (!opts.DisableTls) opts.Cert opts.Key).1,
        setupHandlers (serverPair opts kp).2.1 (serverPair opts kp).2.2 [],
        (serve env.listenResult opts.ListenAddr (!opts.DisableTls) opts.Cert
          opts.Key).2⟩) := by
  rcases hparse : env.ParseArgs with ⟨opts, _ | err⟩
  · cases hver : opts.ShowVersion
    · by_cases htls : opts.tlsConfigured
      · rcases keyPair_cases env.rand env.CreateKeyPairFromSeed with ⟨err, hkp⟩ | ⟨kp, hkp⟩
        · exact Or.inr (Or.inr (Or.inr (Or.inl
            ⟨opts, err, rfl, hver, htls, hkp,
              main_of_keyPair_error env opts err hparse hver htls hkp⟩)))
        · exact Or.inr (Or.inr (Or.inr (Or.inr
            ⟨opts, kp, rfl, hver, htls, hkp,
              main_of_keyPair_ok env opts kp hparse hver htls hkp⟩)))
      · exact Or.inr (Or.inr (Or.inl
          ⟨opts, rfl, hver, htls, main_of_tls_missing env opts hparse hver htls⟩))
    · exact Or.inr (Or.inl ⟨opts, rfl, hver, main_of_version env opts hparse hver⟩)
  · exact Or.inl ⟨opts, err, rfl, main_of_parse_error env opts err hparse⟩

/-! ## Events of the pieces of a trace -/

/-- Enabling debug logging starts no listener. -/
theorem verboseLog_filter_isListen (version : String) (verbose : Bool) :
    (verboseLog version verbose).filter Event.isListen = [] := by
  unfold verboseLog
  split <;> simp [Event.isListen]

/-- Enabling debug logging calls no `keyPair`. -/
theorem verboseLog_filter_isKeyPair (version : String) (verbose : Bool) :
    (verboseLog version verbose).filter Event.isKeyPair = [] := by
  unfold verboseLog
  split <;> simp [Event.isKeyPair]

/-- Enabling debug logging makes none of the later start-up steps. -/
theorem verboseLog_any_isStartupStep (version : String) (verbose : Bool) :
    (verboseLog version verbose).any Event.isStartupStep = false := by
  unfold verboseLog
  split <;> simp [Event.isStartupStep, Event.isFatal, Event.isMetrics, Event.isKeyPair,
    Event.isListen]

/-- The log calls of `serverPair`. -/
theorem serverPair_log (opts : Opts) (kp : odoh.ObliviousDoHKeyPair) :
    (serverPair opts kp).1 = [Event.debugf "resolver timeout: %+v" opts.ResolverTimeout,
      Event.debugf "proxy timeout: %+v" opts.ProxyTimeout] :=
  rfl

/-- The one listener `serve` starts is chosen by `tls`. -/
theorem serve_filter_isListen (listenResult : Option Error) (listenAddr : String)
    (tls : Bool) (tlsCert tlsKey : String) :
    (serve listenResult listenAddr tls tlsCert tlsKey).1.filter Event.isListen =
      [if tls then Event.listenAndServeTLS listenAddr tlsCert tlsKey
        else Event.listenAndServe listenAddr] := by
  cases tls <;> cases listenResult <;>
    simp [serve, fatalAfterListen, Event.isListen, List.filter]

/-- No call of `serve` calls `keyPair`. -/
theorem serve_filter_isKeyPair (listenResult : Option Error) (listenAddr : String)
    (tls : Bool) (tlsCert tlsKey : String) :
    (serve listenResult listenAddr tls tlsCert tlsKey).1.filter Event.isKeyPair = [] := by
  cases tls <;> cases listenResult <;>
    simp [serve, fatalAfterListen, Event.isKeyPair, List.filter]

/-- The listeners started by a run that generated its key pair. -/
theorem serving_trace_filter_isListen (env : Env) (opts : Opts)
    (kp : odoh.ObliviousDoHKeyPair) :
    (verboseLog env.version opts.Verbose ++
      [Event.goMetricsServe opts.MetricsListenAddr, Event.keyPair (some kp, none)] ++
      (serverPair opts kp).1 ++
      (serve env.listenResult opts.ListenAddr (!opts.DisableTls) opts.Cert
        opts.Key).1).filter Event.isListen =
      [if opts.DisableTls then Event.listenAndServe opts.ListenAddr
        else Event.listenAndServeTLS opts.ListenAddr opts.Cert opts.Key] := by
  rw [List.filter_append, List.filter_append, List.filter_append,
    verboseLog_filter_isListen, serve_filter_isListen, serverPair_log]
  cases opts.DisableTls <;> simp [Event.isListen, List.filter]

/-- The `keyPair` calls of a run that generated its key pair. -/
theorem serving_trace_filter_isKeyPair (env : Env) (opts : Opts)
    (kp : odoh.ObliviousDoHKeyPair) :
    (verboseLog env.version opts.Verbose ++
      [Event.goMetricsServe opts.MetricsListenAddr, Event.keyPair (some kp, none)] ++
      (serverPair opts kp).1 ++
      (serve env.listenResult opts.ListenAddr (!opts.DisableTls) opts.Cert
        opts.Key).1).filter Event.isKeyPair = [Event.keyPair (some kp, none)] := by
  rw [List.filter_append, List.filter_append, List.filter_append,
    verboseLog_filter_isKeyPair, serve_filter_isKeyPair, serverPair_log]
  simp [Event.isKeyPair, List.filter]

/-- A run serves ODoH exactly when the options parse, the version flag is off,
the TLS check passes and the key generation succeeds. -/
theorem main_servesODoH_iff (env : Env) :
    (main env).servesODoH = true ↔
      ∃ opts kp, env.ParseArgs = (opts, none) ∧ opts.ShowVersion = false ∧
        opts.tlsConfigured ∧
        keyPair env.rand env.CreateKeyPairFromSeed = (some kp, none) := by
  have hany : ∀ l : List Event, l.any Event.isListen = true ↔ l.filter Event.isListen ≠ [] := by
    intro l
    simp [List.filter_eq_nil_iff]
  constructor
  · intro h
    rw [Run.servesODoH, hany] at h
    rcases main_cases env with ⟨opts, err, _, hm⟩ | ⟨opts, _, _, hm⟩ | ⟨opts, _, _, _, hm⟩ |
      ⟨opts, err, _, _, _, _, hm⟩ | ⟨opts, kp, hparse, hver, htls, hkp, _⟩
    · rw [hm] at h; simp at h
    · rw [hm] at h
      simp [List.filter_append, verboseLog_filter_isListen, Event.isListen, List.filter] at h
    · rw [hm] at h
      simp [List.filter_append, verboseLog_filter_isListen, Event.isListen, List.filter] at h
    · rw [hm] at h
      simp [List.filter_append, verboseLog_filter_isListen, Event.isListen, List.filter] at h
    · exact ⟨opts, kp, hparse, hver, htls, hkp⟩
  · rintro ⟨opts, kp, hparse, hver, htls, hkp⟩
    rw [Run.servesODoH, hany, main_of_keyPair_ok env opts kp hparse hver htls hkp]
    simp only [serving_trace_filter_isListen]
    simp

/-! ## Theorems: `main`, `setupHandlers` and `serve` -/

/-- C5: with the version flag off, `main` goes past the TLS check (starts the
metrics server and calls `keyPair`, and serves when the key generation
succeeds) if and only if TLS is disabled or both `Cert` and `Key` are
non-empty; with TLS enabled and `Cert` or `Key` empty it ends with the fatal
message that --cert and --key must be set, exit status 1, no key pair
generated, no handler registered and no listener started. -/
theorem main_tls_check (env : Env) (opts : Opts)
    (hparse : env.ParseArgs = (opts, none)) (hver : opts.ShowVersion = false) :
    ((main env).trace.any Event.isKeyPair = true ↔
        (opts.DisableTls = true ∨ (opts.Cert ≠ "" ∧ opts.Key ≠ ""))) ∧
      ((main env).trace.any Event.isMetrics = true ↔
        (opts.DisableTls = true ∨ (opts.Cert ≠ "" ∧ opts.Key ≠ ""))) ∧
      ((opts.DisableTls = true ∨ (opts.Cert ≠ "" ∧ opts.Key ≠ "")) →
        ∀ kp, keyPair env.rand env.CreateKeyPairFromSeed = (some kp, none) →
          (main env).servesODoH = true) ∧
      (opts.DisableTls = false → (opts.Cert = "" ∨ opts.Key = "") →
        (main env).exit = some 1 ∧
        (main env).trace.getLast? =
          some (Event.fatal "--cert and --key must be set when TLS is enabled") ∧
        (main env).trace.any Event.isKeyPair = false ∧
        (main env).trace.any Event.isMetrics = false ∧
        (main env).trace.any Event.isListen = false ∧
        (main env).mux = []) := by
  have hv := verboseLog_any_isStartupStep env.version opts.Verbose
  simp only [List.any_eq_false, Event.isStartupStep, Bool.or_eq_true, not_or,
    Bool.not_eq_true] at hv
  have hmissing : ¬ opts.tlsConfigured →
      (main env).exit = some 1 ∧
      (main env).trace.getLast? = some (Event.fatal tlsMessage) ∧
      (main env).trace.any Event.isKeyPair = false ∧
      (main env).trace.any Event.isMetrics = false ∧
      (main env).trace.any Event.isListen = false ∧
      (main env).mux = [] := by
    intro htls
    rw [main_of_tls_missing env opts hparse hver htls]
    refine ⟨rfl, by simp, ?_, ?_, ?_, rfl⟩ <;>
      simp only [List.any_append, List.any_eq_false, Bool.or_eq_false_iff] <;>
      refine ⟨fun e he => ?_, by simp [Event.isKeyPair, Event.isMetrics, Event.isListen]⟩
    · simp [(hv e he).1.2]
    · simp [(hv e he).1.1.2]
    · simp [(hv e he).2]
  have hpast : opts.tlsConfigured →
      (main env).trace.any Event.isKeyPair = true ∧
      (main env).trace.any Event.isMetrics = true := by
    intro htls
    rcases keyPair_cases env.rand env.CreateKeyPairFromSeed with ⟨err, hkp⟩ | ⟨kp, hkp⟩
    · rw [main_of_keyPair_error env opts err hparse hver htls hkp]
      simp [Event.isKeyPair, Event.isMetrics]
    · rw [main_of_keyPair_ok env opts kp hparse hver htls hkp]
      simp [Event.isKeyPair, Event.isMetrics]
  refine ⟨?_, ?_, ?_, ?_⟩
  · constructor
    · intro h
      by_contra hn
      have := (hmissing hn).2.2.1
      rw [h] at this
      exact Bool.noConfusion this
    · exact fun h => (hpast h).1
  · constructor
    · intro h
      by_contra hn
      have := (hmissing hn).2.2.2.1
      rw [h] at this
      exact Bool.noConfusion this
    · exact fun h => (hpast h).2
  · intro htls kp hkp
    exact (main_servesODoH_iff env).2 ⟨opts, kp, hparse, hver, htls, hkp⟩
  · intro hd hck
    have hn : ¬ opts.tlsConfigured := by
      unfold Opts.tlsConfigured
      rcases hck with h | h <;> simp [hd, h]
    exact hmissing hn

/-- C5 at the default options (TLS enabled, no certificate) and at `--no-tls`. -/
theorem main_tls_check_witness :
    (main (envOf Opts.default none sevens copySeed)).exit = some 1 ∧
      (main (envOf Opts.default none sevens copySeed)).mux = [] ∧
      (main (envOf noTlsOpts none sevens copySeed)).servesODoH = true :=
  have h₁ := (main_tls_check (envOf Opts.default none sevens copySeed) Opts.default
    rfl rfl).2.2.2 rfl (Or.inl rfl)
  have h₂ := (main_tls_check (envOf noTlsOpts none sevens copySeed) noTlsOpts
    rfl rfl).2.2.1 (Or.inl rfl) sevensKeyPair (by decide)
  ⟨h₁.1, h₁.2.2.2.2.2, h₂⟩

/-- C6: `setupHandlers` registers exactly the four paths `/proxy`, `/dns-query`,
`/health` and `/.well-known/odohconfigs`, bound to the proxy server's
`proxyQueryHandler`, the target server's `targetQueryHandler`, a handler that
writes `ok`, and the target server's `configHandler`; and in a run of `main`
that serves, the target argument is the target server `serverPair` built, which
holds the generated key pair, and the proxy argument is its proxy server. -/
theorem setupHandlers_routes (env : Env) :
    (∀ target proxy mux, setupHandlers target proxy mux = mux ++
        [("/proxy", Handler.proxyQueryHandler proxy),
          ("/dns-query", Handler.targetQueryHandler target),
          ("/health", Handler.funcLit healthHandler),
          ("/.well-known/odohconfigs", Handler.configHandler target)]) ∧
      (∀ target proxy, (setupHandlers target proxy []).patterns =
        ["/proxy", "/dns-query", "/health", "/.well-known/odohconfigs"]) ∧
      (∀ w, healthHandler w = w ++ "ok") ∧
      ((main env).servesODoH = true →
        ∃ opts kp, env.ParseArgs = (opts, none) ∧
          keyPair env.rand env.CreateKeyPairFromSeed = (some kp, none) ∧
          (main env).mux =
            [("/proxy", Handler.proxyQueryHandler (serverPair opts kp).2.2),
              ("/dns-query", Handler.targetQueryHandler (serverPair opts kp).2.1),
              ("/health", Handler.funcLit healthHandler),
              ("/.well-known/odohconfigs",
                Handler.configHandler (serverPair opts kp).2.1)] ∧
          (serverPair opts kp).2.1.odohKeyPair = kp) := by
  have hsetup : ∀ target proxy mux, setupHandlers target proxy mux = mux ++
      [("/proxy", Handler.proxyQueryHandler proxy),
        ("/dns-query", Handler.targetQueryHandler target),
        ("/health", Handler.funcLit healthHandler),
        ("/.well-known/odohconfigs", Handler.configHandler target)] := by
    intro target proxy mux
    simp [setupHandlers, http.HandleFunc]
  refine ⟨hsetup, ?_, fun _ => rfl, ?_⟩
  · intro target proxy
    rw [hsetup]
    rfl
  · intro h
    obtain ⟨opts, kp, hparse, hver, htls, hkp⟩ := (main_servesODoH_iff env).1 h
    refine ⟨opts, kp, hparse, hkp, ?_, rfl⟩
    rw [main_of_keyPair_ok env opts kp hparse hver htls hkp]
    exact hsetup _ _ []

/-- C6 at a run with `--no-tls`: the routes of the run. -/
theorem setupHandlers_routes_witness :
    (main (envOf noTlsOpts none sevens copySeed)).servesODoH = true ∧
      (main (envOf noTlsOpts none sevens copySeed)).mux.patterns =
        ["/proxy", "/dns-query", "/health", "/.well-known/odohconfigs"] ∧
      healthHandler "" = "ok" :=
  have hserve : (main (envOf noTlsOpts none sevens copySeed)).servesODoH = true := by decide
  have h := setupHandlers_routes (envOf noTlsOpts none sevens copySeed)
  ⟨hserve, by
    obtain ⟨opts, kp, _, _, hmux, _⟩ := h.2.2.2 hserve
    rw [hmux]
    rfl, by decide⟩

/-- C8: a run of `main` that reaches `serve` called `keyPair` exactly once, the
call succeeded, and the target server whose handlers are registered holds
exactly that key pair in `odohKeyPair`; a run in which `keyPair` fails ends
with `log.Fatal` of the error, exit status 1, no handler registered and no
listener started. -/
theorem main_one_keyPair (env : Env) :
    ((main env).servesODoH = true →
        ∃ opts kp, env.ParseArgs = (opts, none) ∧
          keyPair env.rand env.CreateKeyPairFromSeed = (some kp, none) ∧
          (main env).trace.filter Event.isKeyPair = [Event.keyPair (some kp, none)] ∧
          (main env).mux =
            setupHandlers (serverPair opts kp).2.1 (serverPair opts kp).2.2 [] ∧
          (∀ route ∈ (main env).mux, ∀ target,
            route.2.target? = some target → target.odohKeyPair = kp) ∧
          (∃ route ∈ (main env).mux, ∃ target, route.2.target? = some target)) ∧
      (∀ res err, Event.keyPair (res, some err) ∈ (main env).trace →
        (main env).exit = some 1 ∧
        (main env).trace.getLast? = some (Event.fatal err) ∧
        (main env).mux = [] ∧
        (main env).servesODoH = false) := by
  constructor
  · intro h
    obtain ⟨opts, kp, hparse, hver, htls, hkp⟩ := (main_servesODoH_iff env).1 h
    refine ⟨opts, kp, hparse, hkp, ?_, ?_, ?_, ?_⟩
    · rw [main_of_keyPair_ok env opts kp hparse hver htls hkp]
      exact serving_trace_filter_isKeyPair env opts kp
    · rw [main_of_keyPair_ok env opts kp hparse hver htls hkp]
    · rw [main_of_keyPair_ok env opts kp hparse hver htls hkp]
      intro route hroute target htarget
      simp only [setupHandlers, http.HandleFunc, List.nil_append, List.cons_append,
        List.mem_cons, List.mem_singleton, List.not_mem_nil, or_false] at hroute
      rcases hroute with rfl | rfl | rfl | rfl <;>
        simp only [Handler.target?, Option.some.injEq, reduceCtorEq] at htarget
      · rw [← htarget]; rfl
      · rw [← htarget]; rfl
    · rw [main_of_keyPair_ok env opts kp hparse hver htls hkp]
      exact ⟨("/dns-query", Handler.targetQueryHandler (serverPair opts kp).2.1),
        by simp [setupHandlers, http.HandleFunc], _, rfl⟩
  · intro res err hmem
    have hv := verboseLog_any_isStartupStep env.version
    have hnot : ∀ (verbose : Bool) (r : Option odoh.ObliviousDoHKeyPair × Option Error),
        Event.keyPair r ∉ verboseLog env.version verbose := by
      intro verbose r hr
      have := hv verbose
      simp only [List.any_eq_false] at this
      exact this _ hr (by simp [Event.isStartupStep, Event.isKeyPair])
    rcases main_cases env with ⟨opts, e, _, hm⟩ | ⟨opts, _, _, hm⟩ | ⟨opts, _, _, _, hm⟩ |
      ⟨opts, e, _, _, _, _, hm⟩ | ⟨opts, kp, _, _, _, _, hm⟩
    · rw [hm] at hmem; simp at hmem
    · rw [hm] at hmem
      simp [hnot] at hmem
    · rw [hm] at hmem
      simp [hnot] at hmem
    · rw [hm] at hmem
      simp [hnot] at hmem
      obtain ⟨_, rfl⟩ := hmem
      rw [hm]
      refine ⟨rfl, by simp, rfl, ?_⟩
      simp [Run.servesODoH, Event.isListen]
      intro x hx
      have := hv opts.Verbose
      simp only [List.any_eq_false] at this
      have hx' := this x hx
      simp [Event.isStartupStep] at hx'
      exact hx'.2
    · rw [hm] at hmem
      have hfilter : Event.keyPair (res, some err) ∈
          [Event.keyPair (some kp, none)] := by
        rw [← serving_trace_filter_isKeyPair env opts kp]
        exact List.mem_filter.2 ⟨hmem, rfl⟩
      simp at hfilter

/-- C8 at a run with `--no-tls` and at a run without entropy. -/
theorem main_one_keyPair_witness :
    (main (envOf noTlsOpts none sevens copySeed)).trace.filter Event.isKeyPair =
        [Event.keyPair (some sevensKeyPair, none)] ∧
      (main (envOf noTlsOpts none noEntropy copySeed)).exit = some 1 ∧
      (main (envOf noTlsOpts none noEntropy copySeed)).mux = [] :=
  have h₁ := (main_one_keyPair (envOf noTlsOpts none sevens copySeed)).1 (by decide)
  have h₂ := (main_one_keyPair (envOf noTlsOpts none noEntropy copySeed)).2
    none "no entropy" (by decide)
  ⟨by
    obtain ⟨opts, kp, _, hkp, htrace, _⟩ := h₁
    have hk : kp = sevensKeyPair := by
      have : keyPair sevens copySeed = (some sevensKeyPair, none) := by decide
      have h := hkp.symm.trans this
      simpa using h
    rw [htrace, hk], h₂.1, h₂.2.2.1⟩

/-- C9: a run of `main` that reaches `serve` starts exactly one listener: the
HTTPS listener on `ListenAddr` with the configured `Cert` and `Key` if and only
if `DisableTls` is false, the plain HTTP listener on `ListenAddr` if and only if
`DisableTls` is true; and `serve` uses the certificate and the key only when
`tls` is true. -/
theorem main_listener_by_tls (env : Env) :
    ((main env).servesODoH = true →
        ∃ opts, env.ParseArgs = (opts, none) ∧
          (main env).trace.filter Event.isListen =
            [if opts.DisableTls then Event.listenAndServe opts.ListenAddr
              else Event.listenAndServeTLS opts.ListenAddr opts.Cert opts.Key] ∧
          ((∃ addr cert key, Event.listenAndServeTLS addr cert key ∈ (main env).trace) ↔
            opts.DisableTls = false) ∧
          (Event.listenAndServeTLS opts.ListenAddr opts.Cert opts.Key ∈ (main env).trace ↔
            opts.DisableTls = false) ∧
          ((∃ addr, Event.listenAndServe addr ∈ (main env).trace) ↔
            opts.DisableTls = true) ∧
          (Event.listenAndServe opts.ListenAddr ∈ (main env).trace ↔
            opts.DisableTls = true)) ∧
      (∀ listenResult listenAddr cert key cert' key',
        serve listenResult listenAddr false cert key =
          serve listenResult listenAddr false cert' key') ∧
      (∀ listenResult listenAddr cert key,
        (serve listenResult listenAddr true cert key).1.filter Event.isListen =
          [Event.listenAndServeTLS listenAddr cert key]) ∧
      (∀ listenResult listenAddr cert key,
        (serve listenResult listenAddr false cert key).1.filter Event.isListen =
          [Event.listenAndServe listenAddr]) := by
  refine ⟨?_, fun _ _ _ _ _ _ => rfl, ?_, ?_⟩
  · intro h
    obtain ⟨opts, kp, hparse, hver, htls, hkp⟩ := (main_servesODoH_iff env).1 h
    have hfilter : (main env).trace.filter Event.isListen =
        [if opts.DisableTls then Event.listenAndServe opts.ListenAddr
          else Event.listenAndServeTLS opts.ListenAddr opts.Cert opts.Key] := by
      rw [main_of_keyPair_ok env opts kp hparse hver htls hkp]
      exact serving_trace_filter_isListen env opts kp
    have hmem : ∀ e : Event, e.isListen = true →
        (e ∈ (main env).trace ↔
          e = if opts.DisableTls then Event.listenAndServe opts.ListenAddr
            else Event.listenAndServeTLS opts.ListenAddr opts.Cert opts.Key) := by
      intro e he
      rw [← List.mem_singleton, ← hfilter, List.mem_filter]
      simp [he]
    have hT := fun addr cert key => hmem (Event.listenAndServeTLS addr cert key) rfl
    have hP := fun addr => hmem (Event.listenAndServe addr) rfl
    refine ⟨opts, hparse, hfilter, ?_, ?_, ?_, ?_⟩
    · constructor
      · rintro ⟨addr, cert, key, hin⟩
        have := (hT addr cert key).1 hin
        cases hd : opts.DisableTls
        · rfl
        · simp [hd] at this
      · intro hd
        exact ⟨opts.ListenAddr, opts.Cert, opts.Key, (hT _ _ _).2 (by simp [hd])⟩
    · rw [hT]
      cases hd : opts.DisableTls <;> simp
    · constructor
      · rintro ⟨addr, hin⟩
        have := (hP addr).1 hin
        cases hd : opts.DisableTls
        · simp [hd] at this
        · rfl
      · intro hd
        exact ⟨opts.ListenAddr, (hP _).2 (by simp [hd])⟩
    · rw [hP]
      cases hd : opts.DisableTls <;> simp
  · intro listenResult listenAddr cert key
    simpa using serve_filter_isListen listenResult listenAddr true cert key
  · intro listenResult listenAddr cert key
    simpa using serve_filter_isListen listenResult listenAddr false cert key

/-- C9 at a run with a certificate and a key: the HTTPS listener is started. -/
theorem main_listener_by_tls_witness :
    (main (envOf tlsOpts none sevens copySeed)).servesODoH = true ∧
      Event.listenAndServeTLS "localhost:8080" "cert.pem" "key.pem" ∈
        (main (envOf tlsOpts none sevens copySeed)).trace :=
  have hserve : (main (envOf tlsOpts none sevens copySeed)).servesODoH = true := by decide
  have h := (main_listener_by_tls (envOf tlsOpts none sevens copySeed)).1 hserve
  ⟨hserve, by
    obtain ⟨opts, hparse, _, _, hmem, _⟩ := h
    have ho : opts = tlsOpts := by
      have : (tlsOpts, (none : Option Error)) = (opts, none) := hparse
      exact (Prod.mk.inj this).1.symm
    subst ho
    exact hmem.2 rfl⟩

/-- C10: with the version flag set, whatever `DisableTls`, `Cert` and `Key`
are, `main` prints the version line and exits with status 0: the run is the
same for all values of the three options, ends with the version line, makes no
fatal TLS check, starts no metrics server, generates no key pair, registers no
handler and starts no listener; and when parsing fails `main` exits with
status 1 having done nothing. -/
theorem main_version_first (env : Env) :
    (∀ opts, env.ParseArgs = (opts, none) → opts.ShowVersion = true →
        (main env).exit = some 0 ∧
        (main env).trace.getLast? = some (Event.printf ("odohd " ++ env.version ++
          " commit " ++ env.commit ++ " date " ++ env.date ++ "\n")) ∧
        (main env).trace.any Event.isStartupStep = false ∧
        (main env).mux = [] ∧
        (∀ (disableTls : Bool) (cert key : String),
          main { env with ParseArgs :=
            ({ opts with DisableTls := disableTls, Cert := cert, Key := key }, none) } =
            main env)) ∧
      (∀ opts err, env.ParseArgs = (opts, some err) →
        (main env).exit = some 1 ∧ (main env).trace = [] ∧ (main env).mux = []) := by
  constructor
  · intro opts hparse hver
    refine ⟨?_, ?_, ?_, ?_, ?_⟩
    · rw [main_of_version env opts hparse hver]
    · rw [main_of_version env opts hparse hver]
      simp [versionLine]
    · rw [main_of_version env opts hparse hver]
      simp only [List.any_append, verboseLog_any_isStartupStep]
      rfl
    · rw [main_of_version env opts hparse hver]
    · intro disableTls cert key
      rw [main_of_version env opts hparse hver,
        main_of_version { env with ParseArgs :=
          ({ opts with DisableTls := disableTls, Cert := cert, Key := key }, none) }
          { opts with DisableTls := disableTls, Cert := cert, Key := key } rfl hver]
      rfl
  · intro opts err hparse
    rw [main_of_parse_error env opts err hparse]
    exact ⟨rfl, rfl, rfl⟩

/-- C10 at `--version` with TLS enabled and no certificate, and at a failed
parse. -/
theorem main_version_first_witness :
    (main (envOf { Opts.default with ShowVersion := true } none sevens copySeed)).exit
        = some 0 ∧
      (main (envOf { Opts.default with ShowVersion := true } none sevens copySeed)).trace
        = [Event.setLevelDebug, Event.debugln "Verbose logging enabled",
            Event.printf "odohd dev commit unknown date unknown\n"] ∧
      (main (envOf Opts.default (some "unknown flag") sevens copySeed)).exit = some 1 :=
  have h₁ := (main_version_first
    (envOf { Opts.default with ShowVersion := true } none sevens copySeed)).1
    { Opts.default with ShowVersion := true } rfl rfl
  have h₂ := (main_version_first
    (envOf Opts.default (some "unknown flag") sevens copySeed)).2
    Opts.default "unknown flag" rfl
  ⟨h₁.1, by decide, h₂.1⟩

end Odohd
